import Mathlib

/-!
# Verification of the matchmaking / room-lifecycle coordinator

Shallow embedding of `game.py` (class `RoomManager` with its `Player` / `Room`
data model) and of the retry wrapper shared by every Gemini call in
`gemini_service.py`.  Connections are identified by numeric ids; message
delivery is modelled by an oracle `sendOk : Nat → Bool` giving the liveness of
each connection (a `send_json` on connection `w` succeeds iff `sendOk w`).
Suspension-point structure of the pairing path is preserved by splitting
`handle_connection`'s pairing branch at its first `await` (the notification of
the claimed partner): `pairRegister` is the atomic claim-and-register prefix
(lines 37-57), and the two continuations model the successful notification and
the `except` branch (lines 59-71).
-/

/-- A Python/JSON value as produced by `json.loads` and stored in the player
and room fields of `game.py`.  Floats are outside the model; every other JSON
payload kind is covered.  Python `None` is `pnone`. -/
inductive PyVal where
  | pnone : PyVal
  | pbool : Bool → PyVal
  | pint : Int → PyVal
  | pstr : String → PyVal
  | plist : List PyVal → PyVal
  | pdict : List (String × PyVal) → PyVal

/-- Python truthiness (`bool(v)`) for the modelled value kinds. -/
def pyTruthy : PyVal → Bool
  | .pnone => false
  | .pbool b => b
  | .pint n => n != 0
  | .pstr s => s != ""
  | .plist xs => !xs.isEmpty
  | .pdict kvs => !kvs.isEmpty

/-- `v is None` in Python terms: the value is absent. -/
def pyIsNone : PyVal → Bool
  | .pnone => true
  | _ => false

/-- Python `v == n` against an int literal `n`: ints compare numerically and
`bool` is a subtype of `int` (`True == 1`); the remaining modelled kinds
compare unequal to any int. -/
def pyEqInt : PyVal → Int → Bool
  | .pint m, n => m == n
  | .pbool b, n => (if b then (1 : Int) else 0) == n
  | _, _ => false

section Dict

variable {κ α : Type} [DecidableEq κ]

/-- Lookup in an insertion-ordered dictionary (`d[k]` / `d.get(k)`). -/
def dictGet (d : List (κ × α)) (k : κ) : Option α :=
  match d with
  | [] => none
  | (k', v) :: rest => if k' = k then some v else dictGet rest k

/-- `d[k] = v`: replace in place when the key exists, append otherwise
(Python dicts preserve insertion order). -/
def dictInsert (d : List (κ × α)) (k : κ) (v : α) : List (κ × α) :=
  match d with
  | [] => [(k, v)]
  | (k', v') :: rest =>
      if k' = k then (k, v) :: rest else (k', v') :: dictInsert rest k v

/-- Write-back of a mutation to the object stored at `k`: replaces the value
when the key exists and does nothing otherwise (mutating a Python object that
is not in the registry does not add it). -/
def dictUpdate (d : List (κ × α)) (k : κ) (v : α) : List (κ × α) :=
  match d with
  | [] => []
  | (k', v') :: rest =>
      if k' = k then (k, v) :: rest else (k', v') :: dictUpdate rest k v

/-- `d.pop(k, None)`: drop the entry for `k` when present. -/
def dictPop (d : List (κ × α)) (k : κ) : List (κ × α) :=
  match d with
  | [] => []
  | (k', v') :: rest => if k' = k then rest else (k', v') :: dictPop rest k

/-- `d.values()` in insertion order. -/
def dictValues (d : List (κ × α)) : List α := d.map Prod.snd

end Dict

/-- `result["winner"]`-style subscription: a key lookup on a dict, an
exception (`none`) on a missing key or a non-dict receiver. -/
def pyGetItem (v : PyVal) (k : String) : Option PyVal :=
  match v with
  | .pdict kvs => dictGet kvs k
  | _ => none

/-- `result.get(k, d)` at a use site where the receiver is known to be a
dict (non-dicts fall back to the default only because the surrounding code
has already ruled them out). -/
def pyGetDefault (v : PyVal) (k : String) (d : PyVal) : PyVal :=
  (pyGetItem v k).getD d

/-- `object_info.get(k, d)`: only dicts have `.get`; any other receiver
raises `AttributeError` (`none`). -/
def pyGetMethod (v : PyVal) (k : String) (d : PyVal) : Option PyVal :=
  match v with
  | .pdict kvs => some ((dictGet kvs k).getD d)
  | _ => none

/-- The Python `in` operator, `some b` when it returns `b` and `none` when it
raises `TypeError` (membership is defined for dicts, lists and strings; for a
string it is the substring test). -/
def pyContains (v : PyVal) (k : String) : Option Bool :=
  match v with
  | .pdict kvs => some (kvs.any (fun kv => kv.1 == k))
  | .plist xs =>
      some (xs.any (fun x => match x with | .pstr s => s == k | _ => false))
  | .pstr s => some ((s.splitOn k).length != 1)
  | _ => none

/-- `v[k] = x`: item assignment succeeds only on dicts. -/
def pySetItem (v : PyVal) (k : String) (x : PyVal) : Option PyVal :=
  match v with
  | .pdict kvs => some (.pdict (dictInsert kvs k x))
  | _ => none

/-- `Player` from `game.py` lines 10-16.  `ws` holds the id of the owning
connection (`none` for the synthetic AI opponent); `image_data` and
`character` are Python values defaulting to `None`. -/
structure Player where
  ws : Option Nat
  player_id : Nat
  image_data : PyVal := PyVal.pnone
  character : PyVal := PyVal.pnone
  ready : Bool := false

/-- `Room` from `game.py` lines 19-24 (`_next_id` is kept as `nextId`; its
value is never read by the coordinator). -/
structure Room where
  room_id : String
  players : List (Nat × Player) := []
  state : String := "waiting"
  nextId : Nat := 1

/-- The mutable state of `RoomManager` (`game.py` lines 27-31): the room
registry and the single waiting slot.  The `asyncio.Event` used to wake the
waiting task is pure scheduling and carries no data, so it is not modelled. -/
structure RoomManager where
  rooms : List (String × Room) := []
  waiting : Option Player := none

/-- Outbound protocol messages of `game.py` (tagged JSON payloads). -/
inductive Msg where
  | joined : Nat → Nat → Msg
  | both_joined : Nat → Msg
  | waiting : Msg
  | character_generated : PyVal → Msg
  | character_image : PyVal → Msg
  | opponent_character_ready : Msg
  | opponent_ready : Msg
  | battle_start : Nat × PyVal → Nat × PyVal → Msg
  | battle_result : Nat → PyVal → Nat × PyVal → Nat × PyVal → Msg
  | opponent_disconnected : Msg
  | error : String → Msg

/-- Inbound protocol messages dispatched by `handle_message`. -/
inductive InMsg where
  | image_submit : String → InMsg
  | ready : InMsg
  | other : String → InMsg

/-- What happens after the pairing branch returns: the handler either enters
this connection's `_run_player` loop in a given room and slot, or an
unguarded send raised and the coroutine died. -/
inductive PostAction where
  | runPlayer : String → Nat → PostAction
  | crashed : PostAction

/-- A send guarded by `try/except: pass` to every participant of the room
that still owns a connection (the broadcast loops of `game.py`); the result
lists the deliveries that succeeded, in participant-table order. -/
def broadcastMsg (sendOk : Nat → Bool) (room : Room) (msg : Msg) :
    List (Nat × Msg) :=
  (dictValues room.players).filterMap (fun p =>
    match p.ws with
    | some w => if sendOk w then some (w, msg) else none
    | none => none)

/-- The opponent-notification loops (`p.player_id != player.player_id and
p.ws is not None`, guarded by `try/except: pass`). -/
def opponentBroadcast (sendOk : Nat → Bool) (room : Room) (pid : Nat)
    (msg : Msg) : List (Nat × Msg) :=
  (dictValues room.players).filterMap (fun p =>
    if p.player_id == pid then none
    else
      match p.ws with
      | some w => if sendOk w then some (w, msg) else none
      | none => none)

/-- The `except` branch of `_handle_image_submit` (lines 280-284): the error
is sent to the submitter's own connection.  When that send fails too the
exception propagates and no message is delivered. -/
def submitError (sendOk : Nat → Bool) (player : Player) (e : String) :
    List (Nat × Msg) :=
  match player.ws with
  | some w =>
      if sendOk w then [(w, Msg.error ("キャラクター生成に失敗しました: " ++ e))]
      else []
  | none => []

/-- Lines 247-250 of `game.py`, one key:
`if k not in character: character[k] = object_info.get(k, default)`.
`none` models the exception branch (a `TypeError` from `in` or from the item
assignment, or an `AttributeError` from `.get` on a non-dict analysis). -/
def ensureKey (character objectInfo : PyVal) (k : String) (d : PyVal) :
    Option PyVal :=
  match pyContains character k with
  | none => none
  | some true => some character
  | some false =>
      match pyGetMethod objectInfo k d with
      | none => none
      | some v => pySetItem character k v

/-- The attribute/power patch of `_handle_image_submit` (lines 246-250). -/
def patchCharacter (character objectInfo : PyVal) : Option PyVal :=
  match ensureKey character objectInfo "attribute" (PyVal.pstr "打撃") with
  | none => none
  | some c => ensureKey c objectInfo "power" (PyVal.pint 50)

/-- `_handle_image_submit` (lines 234-284).  The three Content Provider
calls are abstracted by their outcomes: `objectOutcome` for
`analyze_object`, `charOutcome` for `analyze_image`, `imgOutcome` for the
optional `generate_character_image`. -/
def handleImageSubmit (objectOutcome charOutcome imgOutcome : Except String PyVal)
    (sendOk : Nat → Bool) (room : Room) (pid : Nat) (imageData : String) :
    Room × List (Nat × Msg) :=
  match dictGet room.players pid with
  | none => (room, [])
  | some player =>
    let player := { player with image_data := PyVal.pstr imageData }
    let room := { room with players := dictUpdate room.players pid player }
    match objectOutcome with
    | .error e => (room, submitError sendOk player e)
    | .ok objectInfo =>
      match charOutcome with
      | .error e => (room, submitError sendOk player e)
      | .ok rawCharacter =>
        match patchCharacter rawCharacter objectInfo with
        | none => (room, submitError sendOk player "TypeError")
        | some character =>
          match player.ws with
          | none => (room, [])
          | some w =>
            if sendOk w then
              let genMsgs := [(w, Msg.character_generated character)]
              let charMsgs :=
                match imgOutcome with
                | .ok img =>
                  match pySetItem character "image" img with
                  | some c => (c, [(w, Msg.character_image img)])
                  | none => (character, [])
                | .error _ => (character, [])
              let player := { player with character := charMsgs.1 }
              let room := { room with players := dictUpdate room.players pid player }
              (room, genMsgs ++ charMsgs.2
                ++ opponentBroadcast sendOk room pid Msg.opponent_character_ready)
            else (room, [])

/-- The room-advance check of `_handle_ready` (lines 298-301):
`len(room.players) == 2 and all(p.ready and p.character for ...)` — note that
`p.character` is a truthiness test, not a `None` test. -/
def readyAdvancePred (room : Room) : Bool :=
  room.players.length == 2
    && (dictValues room.players).all (fun p => p.ready && pyTruthy p.character)

/-- Line 328 of `game.py`:
`winner_player_id = p1.player_id if result["winner"] == 1 else p2.player_id`. -/
def winnerPlayerId (p1 p2 : Player) (w : PyVal) : Nat :=
  if pyEqInt w 1 then p1.player_id else p2.player_id

/-- `_start_battle` (lines 305-361).  `battleOutcome` abstracts
`resolve_battle`; the `asyncio.gather` with `asyncio.sleep(5)` is pure timing
and is modelled separately by `battleResultTime`.  The result is `none` when
the two-element unpacking of `room.players.values()` raises (fewer than two
participants), and otherwise the updated room with the deliveries made. -/
def startBattle (battleOutcome : Except String PyVal) (sendOk : Nat → Bool)
    (room : Room) : Option (Room × List (Nat × Msg)) :=
  let room := { room with state := "playing" }
  match dictValues room.players with
  | p1 :: p2 :: _ =>
    let bstart := broadcastMsg sendOk room
      (Msg.battle_start (p1.player_id, p1.character) (p2.player_id, p2.character))
    match battleOutcome with
    | .error e =>
        some (room, bstart
          ++ broadcastMsg sendOk room (Msg.error ("バトル処理に失敗しました: " ++ e)))
    | .ok result =>
      match pyGetItem result "winner" with
      | none =>
          some (room, bstart
            ++ broadcastMsg sendOk room (Msg.error "バトル処理に失敗しました: KeyError"))
      | some w =>
        let reason := pyGetDefault result "reason" (PyVal.pstr "")
        let room := { room with state := "finished" }
        some (room, bstart ++ broadcastMsg sendOk room
          (Msg.battle_result (winnerPlayerId p1 p2 w) reason
            (p1.player_id, p1.character) (p2.player_id, p2.character)))
  | _ => none

/-- `_handle_ready` (lines 286-303): mark the sender ready, notify the
opponent, and start the battle when the advance check passes (the check does
not consult `room.state`). -/
def handleReady (battleOutcome : Except String PyVal) (sendOk : Nat → Bool)
    (room : Room) (pid : Nat) : Option (Room × List (Nat × Msg)) :=
  match dictGet room.players pid with
  | none => some (room, [])
  | some player =>
    let player := { player with ready := true }
    let room := { room with players := dictUpdate room.players pid player }
    let notify := opponentBroadcast sendOk room pid Msg.opponent_ready
    if readyAdvancePred room then
      match startBattle battleOutcome sendOk room with
      | some rb => some (rb.1, notify ++ rb.2)
      | none => none
    else some (room, notify)

/-- `_handle_disconnect` (lines 363-376): remove the departing participant,
notify the remaining connected participants best-effort, and evict the room
from the registry exactly when it has become empty (otherwise the mutated
room is written back). -/
def handleDisconnect (sendOk : Nat → Bool) (m : RoomManager) (room : Room)
    (pid : Nat) : RoomManager × List (Nat × Msg) :=
  let room := { room with players := dictPop room.players pid }
  let msgs := broadcastMsg sendOk room Msg.opponent_disconnected
  if room.players.isEmpty then
    ({ m with rooms := dictPop m.rooms room.room_id }, msgs)
  else
    ({ m with rooms := dictUpdate m.rooms room.room_id room }, msgs)

/-- `_start_ai_battle` (lines 168-213): register a fresh room with the human
at slot 1 and a synthetic opponent (`ws = None`, `ready = True`) at slot 2,
then send `joined` and `both_joined` to the human (unguarded sends: a failed
link kills the coroutine after the room is already registered).  The
background AI-character generation task is fire-and-forget and touches no
coordinator state, so it is not modelled. -/
def startAiBattle (sendOk : Nat → Bool) (m : RoomManager) (player : Player)
    (wsId : Nat) (aiRoomId : String) :
    RoomManager × List (Nat × Msg) × PostAction :=
  let player := { player with player_id := 1 }
  let aiPlayer : Player := { ws := none, player_id := 2, ready := true }
  let room : Room := { room_id := aiRoomId, players := [(1, player), (2, aiPlayer)] }
  let m := { m with rooms := dictInsert m.rooms aiRoomId room }
  if sendOk wsId then
    (m, [(wsId, Msg.joined 1 2), (wsId, Msg.both_joined 1)],
      PostAction.runPlayer aiRoomId 1)
  else (m, [], PostAction.crashed)

/-- Lines 37-57 of `handle_connection`: atomically (no `await` intervenes)
take the waiting player as partner, clear the slot, create the room with the
partner at slot 1 and the new connection at slot 2, and register it.  Returns
the new manager state, the created room and the two participants. -/
def pairRegister (m : RoomManager) (partner : Player) (wsNew : Nat)
    (roomId : String) : RoomManager × Room × Player × Player :=
  let partner := { partner with player_id := 1 }
  let player : Player := { ws := some wsNew, player_id := 2 }
  let room : Room := { room_id := roomId, players := [(1, partner), (2, player)] }
  ({ m with waiting := none, rooms := dictInsert m.rooms roomId room },
    room, partner, player)

/-- Lines 66-71 of `handle_connection`: the `joined` notification of the
claimed partner failed, so the half-built room is dismantled — the partner's
entry is popped from the room and the room is popped from the registry — and
the new connection is degraded to the AI-fallback path.  The send failure is
caught here and never propagated. -/
def pairSendFailure (sendOk : Nat → Bool) (m : RoomManager) (player : Player)
    (wsNew : Nat) (roomId aiRoomId : String) :
    RoomManager × List (Nat × Msg) × PostAction :=
  let m :=
    match dictGet m.rooms roomId with
    | some room =>
        let cleared : Room := { room with players := dictPop room.players 1 }
        { m with rooms := dictUpdate m.rooms roomId cleared }
    | none => m
  let m := { m with rooms := dictPop m.rooms roomId }
  startAiBattle sendOk m player wsNew aiRoomId

/-- The full pairing branch of `handle_connection` (lines 37-92):
`pairRegister`, then the partner notification with its `except` fallback,
then `joined` to the new connection (an unguarded send) and the
`both_joined` broadcast, ending in the new connection's `_run_player`. -/
def matchArrival (sendOk : Nat → Bool) (m : RoomManager) (partner : Player)
    (wsNew : Nat) (roomId aiRoomId : String) :
    RoomManager × List (Nat × Msg) × PostAction :=
  match pairRegister m partner wsNew roomId with
  | (m, room, partner, player) =>
    let fail := match partner.ws with
      | none => true
      | some pw => !sendOk pw
    if fail then pairSendFailure sendOk m player wsNew roomId aiRoomId
    else
      let pw := partner.ws.getD 0
      let msgs := [(pw, Msg.joined 1 2)]
      if sendOk wsNew then
        let bj := (dictValues room.players).filterMap (fun p =>
          match p.ws with
          | some w => if sendOk w then some (w, Msg.both_joined p.player_id) else none
          | none => none)
        (m, msgs ++ [(wsNew, Msg.joined 2 2)] ++ bj,
          PostAction.runPlayer roomId 2)
      else (m, msgs, PostAction.crashed)

/-- The admission entry point restricted to its pairing branch: a new
connection arrives and finds the waiting slot occupied (`none` when the slot
is empty — the park-and-wait branch is modelled by the `Step` relation). -/
def handleArrival (sendOk : Nat → Bool) (m : RoomManager) (wsNew : Nat)
    (roomId aiRoomId : String) :
    Option (RoomManager × List (Nat × Msg) × PostAction) :=
  match m.waiting with
  | some partner => some (matchArrival sendOk m partner wsNew roomId aiRoomId)
  | none => none

/-- The per-step environment: link liveness plus the outcomes of the four
Content Provider calls a dispatched message can make. -/
structure Oracle where
  sendOk : Nat → Bool
  objectOutcome : Except String PyVal := .error "unavailable"
  charOutcome : Except String PyVal := .error "unavailable"
  imgOutcome : Except String PyVal := .error "unavailable"
  battleOutcome : Except String PyVal := .error "unavailable"

/-- `_handle_disconnect` at registry level: the session's room is the one
registered under its id. -/
def disconnectM (sendOk : Nat → Bool) (m : RoomManager) (roomId : String)
    (pid : Nat) : RoomManager × List (Nat × Msg) :=
  match dictGet m.rooms roomId with
  | none => (m, [])
  | some room => handleDisconnect sendOk m room pid

/-- `handle_message` (lines 226-232) at registry level: look the room up,
dispatch on the tag, write the mutated room back.  Unrecognized tags are a
no-op. -/
def inboundM (o : Oracle) (m : RoomManager) (roomId : String) (pid : Nat)
    (msg : InMsg) : RoomManager × List (Nat × Msg) :=
  match dictGet m.rooms roomId with
  | none => (m, [])
  | some room =>
    match msg with
    | .image_submit data =>
        let rm := handleImageSubmit o.objectOutcome o.charOutcome o.imgOutcome
          o.sendOk room pid data
        ({ m with rooms := dictUpdate m.rooms roomId rm.1 }, rm.2)
    | .ready =>
        match handleReady o.battleOutcome o.sendOk room pid with
        | some rm => ({ m with rooms := dictUpdate m.rooms roomId rm.1 }, rm.2)
        | none => (m, [])
    | .other _ => (m, [])

/-- One coordinator transition: every registry- or slot-mutating code path of
`game.py`, at the granularity of its suspension points. -/
inductive Step where
  | pairClaim : Player → Nat → String → Step
  | pairNotifyFail : Player → Nat → String → String → Step
  | aiStart : Player → Nat → String → Step
  | inbound : String → Nat → InMsg → Step
  | disc : String → Nat → Step
  | park : Player → Step
  | clearSlot : Step

/-- The registry/slot effect of one transition. -/
def applyStep (o : Oracle) (st : Step) (m : RoomManager) : RoomManager :=
  match st with
  | .pairClaim partner wsNew roomId => (pairRegister m partner wsNew roomId).1
  | .pairNotifyFail player wsNew roomId aiRoomId =>
      (pairSendFailure o.sendOk m player wsNew roomId aiRoomId).1
  | .aiStart player wsId roomId => (startAiBattle o.sendOk m player wsId roomId).1
  | .inbound roomId pid msg => (inboundM o m roomId pid msg).1
  | .disc roomId pid => (disconnectM o.sendOk m roomId pid).1
  | .park player => { m with waiting := some player }
  | .clearSlot => { m with waiting := none }

/-- The shared retry wrapper of `gemini_service.py`
(`for attempt in range(3): try ... except: last_error = e;
if attempt < 2: await asyncio.sleep(1)` followed by a raise).  `f` gives each
attempt's outcome; the result pairs the call's outcome with the list of
backoff sleeps performed, in order. -/
def retryCall (failText : String) (f : Nat → Except String PyVal) :
    Except String PyVal × List Nat :=
  match f 0 with
  | .ok v => (.ok v, [])
  | .error _ =>
    match f 1 with
    | .ok v => (.ok v, [1])
    | .error _ =>
      match f 2 with
      | .ok v => (.ok v, [1, 1])
      | .error e => (.error (failText ++ e), [1, 1])

/-- `analyze_object` (`gemini_service.py` lines 47-71), retry skeleton. -/
def analyze_object (f : Nat → Except String PyVal) :
    Except String PyVal × List Nat :=
  retryCall "Gemini API failed after 3 attempts: " f

/-- `analyze_image` (lines 134-158), retry skeleton. -/
def analyze_image (f : Nat → Except String PyVal) :
    Except String PyVal × List Nat :=
  retryCall "Gemini API failed after 3 attempts: " f

/-- `generate_character_image` (lines 179-199), retry skeleton. -/
def generate_character_image (f : Nat → Except String PyVal) :
    Except String PyVal × List Nat :=
  retryCall "Image generation failed after 3 attempts: " f

/-- `generate_random_character` (lines 231-249), retry skeleton. -/
def generate_random_character (f : Nat → Except String PyVal) :
    Except String PyVal × List Nat :=
  retryCall "Random character generation failed after 3 attempts: " f

/-- `resolve_battle` (lines 293-311), retry skeleton. -/
def resolve_battle (f : Nat → Except String PyVal) :
    Except String PyVal × List Nat :=
  retryCall "Gemini API failed after 3 attempts: " f

/-- `asyncio.gather` of two awaitables finishes when the slower of the two
finishes. -/
def gatherCompletion (d1 d2 : Nat) : Nat := max d1 d2

/-- Lines 322-326 of `game.py`: the `battle_result` payload exists only after
`asyncio.gather(resolve_battle(...), asyncio.sleep(5))` completes, so the
result broadcast happens at the start time of the gather plus the completion
time of the slower branch. -/
def battleResultTime (battleStartTime providerLatency : Nat) : Nat :=
  battleStartTime + gatherCompletion providerLatency 5

/-- What the retry wrapper guarantees: a success is the first successful
attempt among the three; an error is raised exactly when all three attempts
fail; and the backoff sleeps are 1 unit each, at most two of them. -/
def retryBehaves (f : Nat → Except String PyVal)
    (out : Except String PyVal × List Nat) : Prop :=
  (∀ v, out.1 = Except.ok v →
      ∃ k, k < 3 ∧ f k = Except.ok v ∧ ∀ j, j < k → ∃ e, f j = Except.error e)
  ∧ ((∃ msg, out.1 = Except.error msg) ↔ (∀ k, k < 3 → ∃ e, f k = Except.error e))
  ∧ (∀ s ∈ out.2, s = 1) ∧ out.2.length ≤ 2

/-- A non-empty generated profile, as the submission handler produces. -/
def charA : PyVal := PyVal.pdict [("name", PyVal.pstr "A")]

/-- A second non-empty generated profile. -/
def charB : PyVal := PyVal.pdict [("name", PyVal.pstr "B")]

/-- Slot-1 participant on connection 10, ready with a profile. -/
def playerOne : Player :=
  { ws := some 10, player_id := 1, character := charA, ready := true }

/-- Slot-2 participant on connection 20, ready with a profile. -/
def playerTwo : Player :=
  { ws := some 20, player_id := 2, character := charB, ready := true }

/-- A freshly matched room with both participants ready-with-profile. -/
def roomTwoW : Room :=
  { room_id := "r", players := [(1, playerOne), (2, playerTwo)] }

/-- The same room after its battle has already been started. -/
def roomPlaying : Room := { roomTwoW with state := "playing" }

/-- A room whose slot-2 participant holds a present-but-empty profile record
(reachable when `generate_random_character` returns the JSON text `{}`,
stored unpatched by the AI-fallback generation task). -/
def roomEmptyProfile : Room :=
  { room_id := "c2",
    players := [(1, playerOne),
      (2, { ws := some 20, player_id := 2, character := PyVal.pdict [],
            ready := true })] }

/-- A lone parked connection occupying the waiting slot. -/
def waiterA : Player := { ws := some 10, player_id := 0 }

/-- Every connection is live. -/
def sendAll : Nat → Bool := fun _ => true

/-- Connection 10 is dead, every other connection is live. -/
def sendNot10 : Nat → Bool := fun w => w != 10

/-- The registry state at the suspension point inside the pairing branch:
the waiter has been claimed and the half-built room is registered, but the
partner has not yet been notified. -/
def mgrHalf : RoomManager :=
  (pairRegister { rooms := [], waiting := some waiterA } waiterA 20 "r1").1

/-- An attempt oracle that fails once and then succeeds. -/
def attemptsEx : Nat → Except String PyVal :=
  fun k => if k = 1 then Except.ok (PyVal.pint 7) else Except.error "down"

/-- A manager whose waiting slot is occupied by `waiterA`. -/
def exMgrWait : RoomManager := { rooms := [], waiting := some waiterA }

/-- A manager with one registered two-participant room. -/
def exMgrOne : RoomManager := { rooms := [("r", roomTwoW)], waiting := none }

section DictLemmas

variable {κ α : Type} [DecidableEq κ]

theorem dictGet_not_mem (d : List (κ × α)) (k : κ)
    (h : k ∉ d.map Prod.fst) : dictGet d k = none := by
  induction d with
  | nil => rfl
  | cons hd tl ih =>
    obtain ⟨k1, v1⟩ := hd
    simp only [List.map_cons, List.mem_cons, not_or] at h
    simp only [dictGet, if_neg (Ne.symm h.1)]
    exact ih h.2

theorem dictGet_insert_self (d : List (κ × α)) (k : κ) (v : α) :
    dictGet (dictInsert d k v) k = some v := by
  induction d with
  | nil => simp [dictInsert, dictGet]
  | cons hd tl ih =>
    obtain ⟨k', v'⟩ := hd
    by_cases h : k' = k <;> simp [dictInsert, dictGet, h, ih]

theorem dictGet_insert_ne (d : List (κ × α)) (k k' : κ) (v : α) (h : k' ≠ k) :
    dictGet (dictInsert d k v) k' = dictGet d k' := by
  induction d with
  | nil =>
    simp only [dictInsert, dictGet, if_neg (Ne.symm h)]
  | cons hd tl ih =>
    obtain ⟨k1, v1⟩ := hd
    simp only [dictInsert]
    by_cases h1 : k1 = k
    · rw [if_pos h1]
      subst h1
      simp only [dictGet, if_neg (Ne.symm h)]
    · rw [if_neg h1]
      simp only [dictGet]
      by_cases h2 : k1 = k' <;> simp [h2, ih]

theorem dictGet_update_isSome (d : List (κ × α)) (k k' : κ) (v : α) :
    (dictGet (dictUpdate d k v) k').isSome = (dictGet d k').isSome := by
  induction d with
  | nil => simp [dictUpdate]
  | cons hd tl ih =>
    obtain ⟨k1, v1⟩ := hd
    simp only [dictUpdate]
    by_cases h1 : k1 = k
    · rw [if_pos h1]
      subst h1
      simp only [dictGet]
      by_cases h2 : k1 = k' <;> simp [h2]
    · rw [if_neg h1]
      simp only [dictGet]
      by_cases h2 : k1 = k' <;> simp [h2, ih]

theorem dictGet_update_self (d : List (κ × α)) (k : κ) (v w : α)
    (h : dictGet d k = some w) : dictGet (dictUpdate d k v) k = some v := by
  induction d with
  | nil => simp [dictGet] at h
  | cons hd tl ih =>
    obtain ⟨k1, v1⟩ := hd
    simp only [dictUpdate]
    by_cases h1 : k1 = k
    · rw [if_pos h1]
      simp [dictGet]
    · rw [if_neg h1]
      simp only [dictGet, if_neg h1] at h ⊢
      exact ih h

theorem dictGet_pop_ne (d : List (κ × α)) (k k' : κ) (h : k' ≠ k) :
    dictGet (dictPop d k) k' = dictGet d k' := by
  induction d with
  | nil => simp [dictPop]
  | cons hd tl ih =>
    obtain ⟨k1, v1⟩ := hd
    simp only [dictPop]
    by_cases h1 : k1 = k
    · rw [if_pos h1]
      subst h1
      simp only [dictGet, if_neg (Ne.symm h)]
    · rw [if_neg h1]
      simp only [dictGet]
      by_cases h2 : k1 = k' <;> simp [h2, ih]

theorem dictGet_pop_self (d : List (κ × α)) (k : κ)
    (h : (d.map Prod.fst).Nodup) : dictGet (dictPop d k) k = none := by
  induction d with
  | nil => rfl
  | cons hd tl ih =>
    obtain ⟨k1, v1⟩ := hd
    simp only [List.map_cons, List.nodup_cons] at h
    simp only [dictPop]
    by_cases h1 : k1 = k
    · rw [if_pos h1]
      subst h1
      exact dictGet_not_mem tl k1 h.1
    · rw [if_neg h1]
      simp only [dictGet, if_neg h1]
      exact ih h.2

theorem dictPop_update_insert_fresh (d : List (κ × α)) (k : κ) (v v' : α)
    (h : dictGet d k = none) :
    dictPop (dictUpdate (dictInsert d k v) k v') k = d := by
  induction d with
  | nil => simp [dictInsert, dictUpdate, dictPop]
  | cons hd tl ih =>
    obtain ⟨k1, v1⟩ := hd
    by_cases h1 : k1 = k
    · simp [dictGet, h1] at h
    · simp only [dictGet, if_neg h1] at h
      simp only [dictInsert, dictUpdate, dictPop, if_neg h1]
      rw [ih h]

theorem dictGet_insert_isSome (d : List (κ × α)) (k k' : κ) (v : α)
    (h : (dictGet d k').isSome) : (dictGet (dictInsert d k v) k').isSome := by
  by_cases he : k' = k
  · subst he
    simp [dictGet_insert_self]
  · rwa [dictGet_insert_ne _ _ _ _ he]

end DictLemmas

theorem dictValues_length {κ α : Type} (d : List (κ × α)) :
    (dictValues d).length = d.length := by
  simp [dictValues]

theorem broadcastMsg_mem (sendOk : Nat → Bool) (room : Room) (msg : Msg)
    (p : Player) (w : Nat) (hp : p ∈ dictValues room.players)
    (hw : p.ws = some w) (hs : sendOk w = true) :
    (w, msg) ∈ broadcastMsg sendOk room msg := by
  unfold broadcastMsg
  refine List.mem_filterMap.mpr ⟨p, hp, ?_⟩
  rw [hw]
  simp [hs]

theorem broadcastMsg_snd (sendOk : Nat → Bool) (room : Room) (msg : Msg) :
    ∀ x ∈ broadcastMsg sendOk room msg, x.2 = msg := by
  intro x hx
  rcases List.mem_filterMap.mp hx with ⟨p, hp, hf⟩
  cases hws : p.ws with
  | none => rw [hws] at hf; cases hf
  | some w =>
    rw [hws] at hf
    dsimp only at hf
    by_cases hs : sendOk w
    · rw [if_pos hs] at hf
      cases hf
      rfl
    · rw [if_neg hs] at hf
      cases hf

theorem startBattle_error (e : String) (sendOk : Nat → Bool) (room : Room)
    (a b : Player) (rest : List Player)
    (h : dictValues room.players = a :: b :: rest) :
    startBattle (Except.error e) sendOk room
      = some ({ room with state := "playing" },
          broadcastMsg sendOk { room with state := "playing" }
            (Msg.battle_start (a.player_id, a.character) (b.player_id, b.character))
          ++ broadcastMsg sendOk { room with state := "playing" }
            (Msg.error ("バトル処理に失敗しました: " ++ e))) := by
  simp only [startBattle, h]

theorem opponentBroadcast_snd (sendOk : Nat → Bool) (room : Room) (pid : Nat)
    (msg : Msg) : ∀ x ∈ opponentBroadcast sendOk room pid msg, x.2 = msg := by
  intro x hx
  rcases List.mem_filterMap.mp hx with ⟨p, hp, hf⟩
  by_cases hpid : p.player_id == pid
  · rw [if_pos hpid] at hf
    cases hf
  · rw [if_neg hpid] at hf
    cases hws : p.ws with
    | none => rw [hws] at hf; cases hf
    | some w =>
      rw [hws] at hf
      dsimp only at hf
      by_cases hs : sendOk w
      · rw [if_pos hs] at hf
        cases hf
        rfl
      · rw [if_neg hs] at hf
        cases hf

theorem startBattle_ok (result : PyVal) (sendOk : Nat → Bool) (room : Room)
    (a b : Player) (rest : List Player) (w : PyVal)
    (h : dictValues room.players = a :: b :: rest)
    (hw : pyGetItem result "winner" = some w) :
    startBattle (Except.ok result) sendOk room
      = some ({ room with state := "finished" },
          broadcastMsg sendOk { room with state := "playing" }
            (Msg.battle_start (a.player_id, a.character) (b.player_id, b.character))
          ++ broadcastMsg sendOk { room with state := "finished" }
            (Msg.battle_result (winnerPlayerId a b w)
              (pyGetDefault result "reason" (PyVal.pstr ""))
              (a.player_id, a.character) (b.player_id, b.character))) := by
  simp only [startBattle, h, hw]

theorem startBattle_keyerr (result : PyVal) (sendOk : Nat → Bool) (room : Room)
    (a b : Player) (rest : List Player)
    (h : dictValues room.players = a :: b :: rest)
    (hw : pyGetItem result "winner" = none) :
    startBattle (Except.ok result) sendOk room
      = some ({ room with state := "playing" },
          broadcastMsg sendOk { room with state := "playing" }
            (Msg.battle_start (a.player_id, a.character) (b.player_id, b.character))
          ++ broadcastMsg sendOk { room with state := "playing" }
            (Msg.error "バトル処理に失敗しました: KeyError")) := by
  simp only [startBattle, h, hw]

theorem startBattle_two (battleOutcome : Except String PyVal)
    (sendOk : Nat → Bool) (room : Room) (a b : Player) (rest : List Player)
    (h : dictValues room.players = a :: b :: rest) :
    ∃ r msgs, startBattle battleOutcome sendOk room = some (r, msgs)
      ∧ (r.state = "playing" ∨ r.state = "finished") := by
  rcases battleOutcome with e | result
  · exact ⟨_, _, startBattle_error e sendOk room a b rest h, Or.inl rfl⟩
  · cases hw : pyGetItem result "winner" with
    | none => exact ⟨_, _, startBattle_keyerr result sendOk room a b rest h hw, Or.inl rfl⟩
    | some w => exact ⟨_, _, startBattle_ok result sendOk room a b rest w h hw, Or.inr rfl⟩

theorem readyAdvancePred_two {room : Room} (h : readyAdvancePred room = true) :
    ∃ a b, dictValues room.players = [a, b] := by
  unfold readyAdvancePred at h
  have hlen : room.players.length = 2 := by
    rw [Bool.and_eq_true] at h
    exact eq_of_beq h.1
  have hv : (dictValues room.players).length = 2 := by
    rw [dictValues_length, hlen]
  exact List.length_eq_two.mp hv

theorem filterMap_sublist {β γ : Type} (l : List β) (g g' : β → Option γ)
    (h : ∀ x y, g x = some y → g' x = some y) :
    (l.filterMap g).Sublist (l.filterMap g') := by
  induction l with
  | nil => simp
  | cons hd tl ih =>
    rw [List.filterMap_cons, List.filterMap_cons]
    cases hg : g hd with
    | none =>
      cases hg' : g' hd with
      | none => exact ih
      | some y => exact List.Sublist.cons y ih
    | some y =>
      rw [h hd y hg]
      exact List.Sublist.cons₂ y ih

theorem broadcastMsg_count_le_one (sendOk : Nat → Bool) (room : Room)
    (msg : Msg) (h : ((dictValues room.players).filterMap Player.ws).Nodup)
    (w : Nat) : (((broadcastMsg sendOk room msg).map Prod.fst).count w) ≤ 1 := by
  have hsub : (((broadcastMsg sendOk room msg).map Prod.fst)).Sublist
      ((dictValues room.players).filterMap Player.ws) := by
    unfold broadcastMsg
    rw [List.map_filterMap]
    apply filterMap_sublist
    intro p y hy
    cases hws : p.ws with
    | none => rw [hws] at hy; cases hy
    | some w' =>
      rw [hws] at hy
      dsimp only at hy
      by_cases hs : sendOk w'
      · rw [if_pos hs] at hy
        simp only [Option.map] at hy
        cases hy
        rfl
      · rw [if_neg hs] at hy
        cases hy
  exact le_trans (hsub.count_le w) ((List.nodup_iff_count_le_one.mp h) w)

theorem pyEqInt_one_iff (w : PyVal) :
    pyEqInt w 1 = true ↔ (w = PyVal.pint 1 ∨ w = PyVal.pbool true) := by
  cases w with
  | pnone => simp [pyEqInt]
  | pbool b => cases b <;> simp [pyEqInt]
  | pint n =>
    simp only [pyEqInt, beq_iff_eq]
    constructor
    · intro hn
      exact Or.inl (by rw [hn])
    · rintro (hn | hn) <;> cases hn
      rfl
  | pstr s => simp [pyEqInt]
  | plist xs => simp [pyEqInt]
  | pdict kvs => simp [pyEqInt]

theorem submitError_mem (sendOk : Nat → Bool) (player : Player) (e : String)
    (w : Nat) (emsg : String)
    (h : (w, Msg.error emsg) ∈ submitError sendOk player e) :
    player.ws = some w := by
  unfold submitError at h
  cases hws : player.ws with
  | none => rw [hws] at h; cases h
  | some w' =>
    rw [hws] at h
    dsimp only at h
    by_cases hs : sendOk w'
    · rw [if_pos hs] at h
      have h' := List.mem_singleton.mp h
      injection h' with h1 h2
      rw [h1]
    · rw [if_neg hs] at h
      cases h

theorem retryCall_behaves (t : String) (f : Nat → Except String PyVal) :
    retryBehaves f (retryCall t f) := by
  cases h0 : f 0 with
  | ok v0 =>
    have hr : retryCall t f = (Except.ok v0, []) := by
      unfold retryCall
      rw [h0]
    rw [hr]
    refine ⟨?_, ?_, ?_, ?_⟩
    · intro v hv
      exact ⟨0, by omega, by rw [h0]; exact hv, fun j hj => absurd hj (by omega)⟩
    · constructor
      · rintro ⟨msg, hmsg⟩
        exact Except.noConfusion hmsg
      · intro hall
        exfalso
        rcases hall 0 (by omega) with ⟨e, he⟩
        rw [h0] at he
        exact Except.noConfusion he
    · intro s hs
      exact absurd hs (List.not_mem_nil s)
    · exact Nat.zero_le 2
  | error e0 =>
    cases h1 : f 1 with
    | ok v1 =>
      have hr : retryCall t f = (Except.ok v1, [1]) := by
        unfold retryCall
        rw [h0, h1]
      rw [hr]
      refine ⟨?_, ?_, ?_, ?_⟩
      · intro v hv
        refine ⟨1, by omega, by rw [h1]; exact hv, ?_⟩
        intro j hj
        have hj0 : j = 0 := by omega
        rw [hj0, h0]
        exact ⟨e0, rfl⟩
      · constructor
        · rintro ⟨msg, hmsg⟩
          exact Except.noConfusion hmsg
        · intro hall
          exfalso
          rcases hall 1 (by omega) with ⟨e, he⟩
          rw [h1] at he
          exact Except.noConfusion he
      · intro s hs
        rw [List.mem_singleton] at hs
        exact hs
      · simp
    | error e1 =>
      cases h2 : f 2 with
      | ok v2 =>
        have hr : retryCall t f = (Except.ok v2, [1, 1]) := by
          unfold retryCall
          rw [h0, h1, h2]
        rw [hr]
        refine ⟨?_, ?_, ?_, ?_⟩
        · intro v hv
          refine ⟨2, by omega, by rw [h2]; exact hv, ?_⟩
          intro j hj
          match j, hj with
          | 0, _ => exact ⟨e0, h0⟩
          | 1, _ => exact ⟨e1, h1⟩
        · constructor
          · rintro ⟨msg, hmsg⟩
            exact Except.noConfusion hmsg
          · intro hall
            exfalso
            rcases hall 2 (by omega) with ⟨e, he⟩
            rw [h2] at he
            exact Except.noConfusion he
        · intro s hs
          rcases List.mem_cons.mp hs with h | h
          · exact h
          · rw [List.mem_singleton] at h
            exact h
        · simp
      | error e2 =>
        have hr : retryCall t f = (Except.error (t ++ e2), [1, 1]) := by
          unfold retryCall
          rw [h0, h1, h2]
        rw [hr]
        refine ⟨?_, ?_, ?_, ?_⟩
        · intro v hv
          exact Except.noConfusion hv
        · constructor
          · intro _ k hk
            match k, hk with
            | 0, _ => exact ⟨e0, h0⟩
            | 1, _ => exact ⟨e1, h1⟩
            | 2, _ => exact ⟨e2, h2⟩
          · intro _
            exact ⟨t ++ e2, rfl⟩
        · intro s hs
          rcases List.mem_cons.mp hs with h | h
          · exact h
          · rw [List.mem_singleton] at h
            exact h
        · simp

/-- C3: the code violates the claim.  In a room whose battle has already
been started (state `playing`, both participants ready with profiles), a
repeated `ready` message passes the advance check again — `_handle_ready`
never consults `room.state` — so `_start_battle` runs a second time,
re-broadcasting `battle_start` and re-resolving to a second
`battle_result`. -/
theorem c3_refire :
    roomPlaying.state = "playing"
    ∧ handleReady
        (Except.ok (PyVal.pdict [("winner", PyVal.pint 2), ("reason", PyVal.pstr "again")]))
        sendAll roomPlaying 1
      = some ({ room_id := "r", players := [(1, playerOne), (2, playerTwo)],
                state := "finished" },
          [(20, Msg.opponent_ready),
           (10, Msg.battle_start (1, charA) (2, charB)),
           (20, Msg.battle_start (1, charA) (2, charB)),
           (10, Msg.battle_result 2 (PyVal.pstr "again") (1, charA) (2, charB)),
           (20, Msg.battle_result 2 (PyVal.pstr "again") (1, charA) (2, charB))]) :=
  ⟨rfl, rfl⟩

/-- C4 counterexample: when the resolution provider call fails, the room is
left in state `playing`, not `finished`: the `except` branch of
`_start_battle` broadcasts the typed error but never assigns
`room.state = "finished"`, so "still marks the room resolved" is false. -/
theorem c4_counterexample :
    startBattle (Except.error "boom") sendAll roomTwoW
      = some ({ room_id := "r", players := [(1, playerOne), (2, playerTwo)],
                state := "playing" },
          [(10, Msg.battle_start (1, charA) (2, charB)),
           (20, Msg.battle_start (1, charA) (2, charB)),
           (10, Msg.error "バトル処理に失敗しました: boom"),
           (20, Msg.error "バトル処理に失敗しました: boom")])
    ∧ ("playing" : String) ≠ "finished" :=
  ⟨rfl, by decide⟩

/-- C7 counterexample: a resolution failure sends the typed `error` message
to BOTH connected participants (connections 10 and 20), so "`error` is never
broadcast, only targeted" is false on the code. -/
theorem c7_counterexample :
    startBattle (Except.error "x") sendAll roomTwoW
      = some ({ room_id := "r", players := [(1, playerOne), (2, playerTwo)],
                state := "playing" },
          [(10, Msg.battle_start (1, charA) (2, charB)),
           (20, Msg.battle_start (1, charA) (2, charB)),
           (10, Msg.error "バトル処理に失敗しました: x"),
           (20, Msg.error "バトル処理に失敗しました: x")])
    ∧ (10 : Nat) ≠ 20 :=
  ⟨rfl, by decide⟩

/-- C10 counterexample: with the winner field holding the boolean `true`
(not the integer 1), the broadcast `winner_player_id` is the FIRST listed
participant's id, because Python's `==` treats `True` as numerically equal
to 1 — the claim demands the second participant's id for every value other
than the integer 1. -/
theorem c10_counterexample :
    startBattle (Except.ok (PyVal.pdict [("winner", PyVal.pbool true)]))
        sendAll roomTwoW
      = some ({ room_id := "r", players := [(1, playerOne), (2, playerTwo)],
                state := "finished" },
          [(10, Msg.battle_start (1, charA) (2, charB)),
           (20, Msg.battle_start (1, charA) (2, charB)),
           (10, Msg.battle_result 1 (PyVal.pstr "") (1, charA) (2, charB)),
           (20, Msg.battle_result 1 (PyVal.pstr "") (1, charA) (2, charB))])
    ∧ PyVal.pbool true ≠ PyVal.pint 1
    ∧ playerOne.player_id = 1 ∧ playerTwo.player_id = 2 :=
  ⟨rfl, fun h => PyVal.noConfusion h, rfl, rfl⟩

/-- C2 counterexample: a room with exactly 2 participants, both `ready` and
both with a NON-ABSENT profile, where the profile of one participant is the
empty record `{}`: the claimed advance predicate holds, yet `_handle_ready`
does not advance the room (Python `p.character` is a truthiness test, and an
empty dict is falsy), so the stated "if and only if" fails. -/
theorem c2_counterexample :
    roomEmptyProfile.players.length = 2
    ∧ roomEmptyProfile.state = "waiting"
    ∧ (dictValues roomEmptyProfile.players).all
        (fun p => p.ready && !(pyIsNone p.character)) = true
    ∧ handleReady (Except.ok (PyVal.pdict [("winner", PyVal.pint 1)]))
        sendAll roomEmptyProfile 2
      = some (roomEmptyProfile, [(10, Msg.opponent_ready)]) :=
  ⟨rfl, rfl, rfl, rfl⟩

/-- C6 counterexample: a room registered at the pairing suspension point is
destroyed by the partner-notify-failure discard (lines 66-71 of
`handle_connection`), which is not the disconnect-cleanup path, so
disconnect cleanup is NOT the only path that destroys a room. -/
theorem c6_counterexample :
    dictGet mgrHalf.rooms "r1"
      = some { room_id := "r1",
               players := [(1, { ws := some 10, player_id := 1 }),
                           (2, { ws := some 20, player_id := 2 })] }
    ∧ dictGet ((pairSendFailure sendNot10 mgrHalf
          { ws := some 20, player_id := 2 } 20 "r1" "r2").1).rooms "r1" = none
    ∧ (pairSendFailure sendNot10 mgrHalf
          { ws := some 20, player_id := 2 } 20 "r1" "r2").2.2
      = PostAction.runPlayer "r2" 1 :=
  ⟨rfl, rfl, rfl⟩

/-- C8: the presentation delay during resolution is a hard 5-unit floor: the
`battle_result` broadcast happens at least 5 time units after the
`battle_start` broadcast, whatever the provider latency is. -/
theorem c8_delay_floor (battleStartTime providerLatency : Nat) :
    battleStartTime + 5 ≤ battleResultTime battleStartTime providerLatency :=
  Nat.add_le_add_left (Nat.le_max_right providerLatency 5) battleStartTime

/-- C1: when a connection B is admitted while A occupies the waiting slot
(i.e. before A's deadline and before A skipped) and both links are live, the
pairing branch deterministically creates one room, registers it, and places
A at slot 1 and B at slot 2; the waiting slot is cleared.  Determinism holds
by construction: the branch is a pure function of the slot state. -/
theorem c1_pairing (sendOk : Nat → Bool) (m : RoomManager) (partner : Player)
    (pw wsNew : Nat) (roomId aiRoomId : String)
    (hw : m.waiting = some partner) (hpw : partner.ws = some pw)
    (hps : sendOk pw = true) (hns : sendOk wsNew = true) :
    ∃ m' msgs, handleArrival sendOk m wsNew roomId aiRoomId
        = some (m', msgs, PostAction.runPlayer roomId 2)
      ∧ m'.waiting = none
      ∧ dictGet m'.rooms roomId = some
          { room_id := roomId,
            players := [(1, { partner with player_id := 1 }),
                        (2, { ws := some wsNew, player_id := 2 })] } := by
  simp only [handleArrival, matchArrival, pairRegister, hw, hpw, hps, hns,
    Bool.not_true, if_false, if_true]
  exact ⟨_, _, rfl, rfl, dictGet_insert_self _ _ _⟩

/-- C5: if the first `joined` send to the claimed waiting partner fails,
the half-built room is discarded — the partner's entry is popped and the
room is removed from the registry — and the new connection alone proceeds
on the AI-fallback path (slot 1 of a fresh AI room, all delivered messages
addressed to the new connection only); the failure is caught, not
propagated: matching returns the AI room's run action normally. -/
theorem c5_fallback (sendOk : Nat → Bool) (m : RoomManager) (partner : Player)
    (pw wsNew : Nat) (roomId aiRoomId : String)
    (hw : m.waiting = some partner) (hpw : partner.ws = some pw)
    (hdead : sendOk pw = false) (hok : sendOk wsNew = true)
    (hfresh : dictGet m.rooms roomId = none) (hne : roomId ≠ aiRoomId) :
    ∃ m', handleArrival sendOk m wsNew roomId aiRoomId
        = some (m', [(wsNew, Msg.joined 1 2), (wsNew, Msg.both_joined 1)],
            PostAction.runPlayer aiRoomId 1)
      ∧ dictGet m'.rooms roomId = none
      ∧ m'.rooms = dictInsert m.rooms aiRoomId
          { room_id := aiRoomId,
            players := [(1, { ws := some wsNew, player_id := 1 }),
                        (2, { ws := none, player_id := 2, ready := true })] } := by
  simp only [handleArrival, matchArrival, pairRegister, hw, hpw, hdead,
    Bool.not_false, if_true]
  unfold pairSendFailure
  rw [dictGet_insert_self]
  dsimp only
  rw [dictPop_update_insert_fresh _ _ _ _ hfresh]
  simp only [startAiBattle, hok, if_true]
  refine ⟨_, rfl, ?_, rfl⟩
  rw [dictGet_insert_ne _ _ _ _ hne]
  exact hfresh

/-- C2 (amended): from phase `waiting`, a `ready` message advances the room
if and only if, after recording the sender's readiness, the room has exactly
2 participants and every participant is ready with a TRUTHY (non-absent and
non-empty) profile; partial readiness never triggers the advance. -/
theorem c2_amended (battleOutcome : Except String PyVal) (sendOk : Nat → Bool)
    (room : Room) (pid : Nat) (player : Player)
    (hp : dictGet room.players pid = some player)
    (hw : room.state = "waiting") :
    ∃ r msgs, handleReady battleOutcome sendOk room pid = some (r, msgs)
      ∧ ((r.state ≠ "waiting") ↔
          readyAdvancePred
            ({ room with
                players := dictUpdate room.players pid
                    ({ player with ready := true }) } : Room) = true) := by
  simp only [handleReady, hp]
  by_cases hpred : readyAdvancePred
      ({ room with
          players := dictUpdate room.players pid
              ({ player with ready := true }) } : Room) = true
  · rw [if_pos hpred]
    obtain ⟨a, b, hab⟩ := readyAdvancePred_two hpred
    obtain ⟨r, msgs, hsb, hstate⟩ :=
      startBattle_two battleOutcome sendOk _ a b [] hab
    rw [hsb]
    refine ⟨r, _, rfl, iff_of_true ?_ hpred⟩
    rcases hstate with h | h <;> rw [h] <;> decide
  · rw [if_neg hpred]
    refine ⟨_, _, rfl, iff_of_false ?_ hpred⟩
    intro hne
    exact hne hw

/-- C4 (amended): if the resolution call fails, the step broadcasts a typed
error notification to every still-connected participant, but the room's
phase remains `playing` (active); only a successful resolution marks the
terminal `finished` state. -/
theorem c4_amended (room : Room) (e : String) (sendOk : Nat → Bool)
    (a b : Player) (rest : List Player)
    (h : dictValues room.players = a :: b :: rest) :
    ∃ msgs, startBattle (Except.error e) sendOk room
        = some (({ room with state := "playing" } : Room), msgs)
      ∧ ({ room with state := "playing" } : Room).state ≠ "finished"
      ∧ ∀ p ∈ dictValues room.players, ∀ w, p.ws = some w → sendOk w = true →
          (w, Msg.error ("バトル処理に失敗しました: " ++ e)) ∈ msgs := by
  refine ⟨_, startBattle_error e sendOk room a b rest h,
    by show ("playing" : String) ≠ "finished"; decide, ?_⟩
  intro p hp w hw hs
  apply List.mem_append_right
  exact broadcastMsg_mem sendOk _ _ p w hp hw hs

/-- C7 (amended): mandatory-generation failures in the submission handler
are targeted — every delivered `error` goes to the submitting participant's
own connection — while resolution failures in `_start_battle` are broadcast
to every still-connected participant of the room. -/
theorem c7_amended :
    (∀ (objectOutcome charOutcome imgOutcome : Except String PyVal)
        (sendOk : Nat → Bool) (room : Room) (pid : Nat) (data : String)
        (w : Nat) (emsg : String),
        (w, Msg.error emsg)
            ∈ (handleImageSubmit objectOutcome charOutcome imgOutcome
                sendOk room pid data).2 →
        ∃ p, dictGet room.players pid = some p ∧ p.ws = some w)
    ∧ (∀ (room : Room) (e : String) (sendOk : Nat → Bool) (a b : Player)
        (rest : List Player), dictValues room.players = a :: b :: rest →
        ∀ p ∈ dictValues room.players, ∀ w, p.ws = some w → sendOk w = true →
        ∃ r msgs, startBattle (Except.error e) sendOk room = some (r, msgs)
          ∧ (w, Msg.error ("バトル処理に失敗しました: " ++ e)) ∈ msgs) := by
  constructor
  · intro oo co io sendOk room pid data w emsg hmem
    unfold handleImageSubmit at hmem
    cases hq : dictGet room.players pid with
    | none =>
      rw [hq] at hmem
      exact absurd hmem (List.not_mem_nil _)
    | some player =>
      rw [hq] at hmem
      dsimp only at hmem
      rcases oo with e1 | objectInfo
      · exact ⟨player, rfl, submitError_mem _ _ _ _ _ hmem⟩
      · rcases co with e2 | rawChar
        · exact ⟨player, rfl, submitError_mem _ _ _ _ _ hmem⟩
        · dsimp only at hmem
          cases hpc : patchCharacter rawChar objectInfo with
          | none =>
            rw [hpc] at hmem
            exact ⟨player, rfl, submitError_mem _ _ _ _ _ hmem⟩
          | some character =>
            rw [hpc] at hmem
            dsimp only at hmem
            cases hws : player.ws with
            | none =>
              rw [hws] at hmem
              exact absurd hmem (List.not_mem_nil _)
            | some w' =>
              rw [hws] at hmem
              dsimp only at hmem
              by_cases hs : sendOk w'
              · rw [if_pos hs] at hmem
                exfalso
                rcases List.mem_append.mp hmem with h | h
                · rcases List.mem_append.mp h with h | h
                  · rw [List.mem_singleton] at h
                    injection h with h1 h2
                    exact Msg.noConfusion h2
                  · rcases io with e3 | img
                    · dsimp only at h
                      exact absurd h (List.not_mem_nil _)
                    · dsimp only at h
                      cases hset : pySetItem character "image" img with
                      | none =>
                        rw [hset] at h
                        exact absurd h (List.not_mem_nil _)
                      | some c2 =>
                        rw [hset] at h
                        dsimp only at h
                        rw [List.mem_singleton] at h
                        injection h with h1 h2
                        exact Msg.noConfusion h2
                · have := opponentBroadcast_snd _ _ _ _ _ h
                  exact Msg.noConfusion this
              · rw [if_neg hs] at hmem
                exact absurd hmem (List.not_mem_nil _)
  · intro room e sendOk a b rest h p hp w hw hs
    refine ⟨_, _, startBattle_error e sendOk room a b rest h, ?_⟩
    apply List.mem_append_right
    exact broadcastMsg_mem sendOk _ _ p w hp hw hs

/-- C10 (amended): taking the two participants in participant-table
insertion order, the broadcast `winner_player_id` equals the first
participant's id exactly when the winner field compares equal to 1 under
Python equality — i.e. it is the integer 1 or the boolean true (floats are
outside the model); for every other modelled value it is the second
participant's id. -/
theorem c10_amended (room : Room) (a b : Player) (rest : List Player)
    (sendOk : Nat → Bool) (w : PyVal) (s : String)
    (h : dictValues room.players = a :: b :: rest) :
    ∃ msgs,
      startBattle
          (Except.ok (PyVal.pdict [("winner", w), ("reason", PyVal.pstr s)]))
          sendOk room
        = some (({ room with state := "finished" } : Room), msgs)
      ∧ msgs = broadcastMsg sendOk ({ room with state := "playing" } : Room)
            (Msg.battle_start (a.player_id, a.character) (b.player_id, b.character))
          ++ broadcastMsg sendOk ({ room with state := "finished" } : Room)
            (Msg.battle_result (winnerPlayerId a b w) (PyVal.pstr s)
              (a.player_id, a.character) (b.player_id, b.character))
      ∧ ((w = PyVal.pint 1 ∨ w = PyVal.pbool true) →
          winnerPlayerId a b w = a.player_id)
      ∧ ((w ≠ PyVal.pint 1 ∧ w ≠ PyVal.pbool true) →
          winnerPlayerId a b w = b.player_id) := by
  have hwv : pyGetItem (PyVal.pdict [("winner", w), ("reason", PyVal.pstr s)])
      "winner" = some w := rfl
  have hrv : pyGetDefault (PyVal.pdict [("winner", w), ("reason", PyVal.pstr s)])
      "reason" (PyVal.pstr "") = PyVal.pstr s := rfl
  have heq := startBattle_ok
    (PyVal.pdict [("winner", w), ("reason", PyVal.pstr s)])
    sendOk room a b rest w h hwv
  rw [hrv] at heq
  refine ⟨_, heq, rfl, ?_, ?_⟩
  · intro hone
    unfold winnerPlayerId
    rw [if_pos ((pyEqInt_one_iff w).mpr hone)]
  · intro hother
    unfold winnerPlayerId
    rw [if_neg ?_]
    intro hcontra
    rcases (pyEqInt_one_iff w).mp hcontra with h1 | h1
    · exact hother.1 h1
    · exact hother.2 h1

/-- C9: every Content Provider call (`analyze_object`, `analyze_image`,
`generate_character_image`, `generate_random_character`, `resolve_battle`)
makes up to 3 internal attempts, returns the first successful result, raises
only after all 3 attempts failed, and sleeps a fixed 1-unit backoff between
attempts (at most two sleeps). -/
theorem c9_retry (f : Nat → Except String PyVal) :
    retryBehaves f (analyze_object f)
    ∧ retryBehaves f (analyze_image f)
    ∧ retryBehaves f (generate_character_image f)
    ∧ retryBehaves f (generate_random_character f)
    ∧ retryBehaves f (resolve_battle f) :=
  ⟨retryCall_behaves _ f, retryCall_behaves _ f, retryCall_behaves _ f,
    retryCall_behaves _ f, retryCall_behaves _ f⟩

/-- Witness for C9: with an oracle failing once then succeeding, the call
returns the attempt-1 success after a failed attempt 0. -/
theorem c9_retry_witness :
    ∃ k, k < 3 ∧ attemptsEx k = Except.ok (PyVal.pint 7)
      ∧ ∀ j, j < k → ∃ e, attemptsEx j = Except.error e :=
  ((c9_retry attemptsEx).1).1 (PyVal.pint 7) rfl

theorem startAiBattle_fst (sendOk : Nat → Bool) (m : RoomManager)
    (player : Player) (wsId : Nat) (aiRoomId : String) :
    (startAiBattle sendOk m player wsId aiRoomId).1
      = { m with
          rooms := dictInsert m.rooms aiRoomId
              ({ room_id := aiRoomId,
                 players := [(1, { player with player_id := 1 }),
                             (2, { ws := none, player_id := 2, ready := true })] } : Room) } := by
  unfold startAiBattle
  by_cases hs : sendOk wsId
  · rw [if_pos hs]
  · rw [if_neg hs]

theorem dictGet_insert_none {κ α : Type} [DecidableEq κ] (d : List (κ × α))
    (k k' : κ) (v : α) (h : dictGet (dictInsert d k v) k' = none) :
    dictGet d k' = none := by
  by_cases he : k' = k
  · subst he
    rw [dictGet_insert_self] at h
    exact Option.noConfusion h
  · rwa [dictGet_insert_ne _ _ _ _ he] at h

theorem pairSendFailure_preserve (sendOk : Nat → Bool) (m : RoomManager)
    (player : Player) (wsNew : Nat) (roomId aiRoomId : String) (rid : String)
    (hr : rid ≠ roomId) (hsome : (dictGet m.rooms rid).isSome = true) :
    (dictGet ((pairSendFailure sendOk m player wsNew roomId aiRoomId).1).rooms
      rid).isSome = true := by
  unfold pairSendFailure
  rw [startAiBattle_fst]
  cases hmr : dictGet m.rooms roomId with
  | none =>
    dsimp only
    apply dictGet_insert_isSome
    rw [dictGet_pop_ne _ _ _ hr]
    exact hsome
  | some room =>
    dsimp only
    apply dictGet_insert_isSome
    rw [dictGet_pop_ne _ _ _ hr]
    rw [dictGet_update_isSome]
    exact hsome

/-- C6 (amended): disconnect cleanup removes the departing participant,
delivers at most one best-effort `opponent_disconnected` per remaining
connected participant (every delivered message is that notification), and
evicts the room from the registry exactly when the room is left empty; and
over every coordinator transition, a registered room can be removed from
the registry only by a disconnect step or by the pairing
partner-notify-failure discard. -/
theorem c6_amended :
    (∀ (sendOk : Nat → Bool) (m : RoomManager) (roomId : String) (pid : Nat)
        (room : Room),
      dictGet m.rooms roomId = some room →
      room.room_id = roomId →
      (room.players.map Prod.fst).Nodup →
      (m.rooms.map Prod.fst).Nodup →
      ((dictValues (dictPop room.players pid)).filterMap Player.ws).Nodup →
      (∀ r', dictGet ((disconnectM sendOk m roomId pid).1).rooms roomId = some r' →
          dictGet r'.players pid = none)
      ∧ (∀ x ∈ (disconnectM sendOk m roomId pid).2, x.2 = Msg.opponent_disconnected)
      ∧ (∀ w, (((disconnectM sendOk m roomId pid).2).map Prod.fst).count w ≤ 1)
      ∧ (dictPop room.players pid = [] →
          dictGet ((disconnectM sendOk m roomId pid).1).rooms roomId = none)
      ∧ (dictPop room.players pid ≠ [] →
          dictGet ((disconnectM sendOk m roomId pid).1).rooms roomId
            = some ({ room with players := dictPop room.players pid } : Room)))
    ∧ (∀ (o : Oracle) (st : Step) (m : RoomManager) (rid : String),
        (dictGet m.rooms rid).isSome = true →
        dictGet ((applyStep o st m).rooms) rid = none →
        (∃ r p, st = Step.disc r p)
        ∨ (∃ pl ws aiR, st = Step.pairNotifyFail pl ws rid aiR)) := by
  constructor
  · intro sendOk m roomId pid room hm hid hnd hndr hndw
    have hdm : disconnectM sendOk m roomId pid = handleDisconnect sendOk m room pid := by
      unfold disconnectM
      rw [hm]
    rw [hdm]
    unfold handleDisconnect
    dsimp only
    cases hempty : (dictPop room.players pid).isEmpty with
    | true =>
      rw [if_pos rfl]
      refine ⟨?_, ?_, ?_, ?_, ?_⟩
      · intro r' h'
        rw [hid, dictGet_pop_self m.rooms roomId hndr] at h'
        exact Option.noConfusion h'
      · exact broadcastMsg_snd sendOk _ _
      · exact broadcastMsg_count_le_one sendOk _ _ hndw
      · intro _
        rw [hid]
        exact dictGet_pop_self m.rooms roomId hndr
      · intro hne
        exact absurd (List.isEmpty_iff.mp hempty) hne
    | false =>
      rw [if_neg (by decide : ¬(false = true))]
      refine ⟨?_, ?_, ?_, ?_, ?_⟩
      · intro r' h'
        rw [hid] at h'
        rw [dictGet_update_self m.rooms roomId _ room hm] at h'
        injection h' with h''
        rw [← h'']
        exact dictGet_pop_self room.players pid hnd
      · exact broadcastMsg_snd sendOk _ _
      · exact broadcastMsg_count_le_one sendOk _ _ hndw
      · intro hnil
        rw [hnil] at hempty
        exact absurd hempty (by decide)
      · intro _
        rw [hid]
        exact dictGet_update_self m.rooms roomId _ room hm
  · intro o st m rid hsome hnone
    cases st with
    | pairClaim partner wsNew roomId =>
      exfalso
      simp only [applyStep, pairRegister] at hnone
      rw [dictGet_insert_none _ _ _ _ hnone] at hsome
      simp at hsome
    | pairNotifyFail pl wsNew roomId aiRoomId =>
      by_cases hr : rid = roomId
      · subst hr
        exact Or.inr ⟨pl, wsNew, aiRoomId, rfl⟩
      · exfalso
        simp only [applyStep] at hnone
        have hpres := pairSendFailure_preserve o.sendOk m pl wsNew roomId
          aiRoomId rid hr hsome
        rw [hnone] at hpres
        simp at hpres
    | aiStart player wsId roomId =>
      exfalso
      simp only [applyStep] at hnone
      rw [startAiBattle_fst] at hnone
      dsimp only at hnone
      rw [dictGet_insert_none _ _ _ _ hnone] at hsome
      simp at hsome
    | inbound roomId pid msg =>
      exfalso
      simp only [applyStep, inboundM] at hnone
      cases hmr : dictGet m.rooms roomId with
      | none =>
        rw [hmr] at hnone
        dsimp only at hnone
        rw [hnone] at hsome
        simp at hsome
      | some room =>
        rw [hmr] at hnone
        dsimp only at hnone
        cases msg with
        | image_submit data =>
          have hpres := dictGet_update_isSome m.rooms roomId rid
            (handleImageSubmit o.objectOutcome o.charOutcome o.imgOutcome
              o.sendOk room pid data).1
          rw [hnone] at hpres
          rw [hsome] at hpres
          simp at hpres
        | ready =>
          cases hhr : handleReady o.battleOutcome o.sendOk room pid with
          | none =>
            rw [hhr] at hnone
            dsimp only at hnone
            rw [hnone] at hsome
            simp at hsome
          | some rm =>
            rw [hhr] at hnone
            dsimp only at hnone
            have hpres := dictGet_update_isSome m.rooms roomId rid rm.1
            rw [hnone] at hpres
            rw [hsome] at hpres
            simp at hpres
        | other tag =>
          rw [hnone] at hsome
          simp at hsome
    | disc roomId pid =>
      exact Or.inl ⟨roomId, pid, rfl⟩
    | park player =>
      exfalso
      simp only [applyStep] at hnone
      rw [hnone] at hsome
      simp at hsome
    | clearSlot =>
      exfalso
      simp only [applyStep] at hnone
      rw [hnone] at hsome
      simp at hsome


/-- Witness for C1 at a concrete waiting player and arrival. -/
theorem c1_pairing_witness :
    ∃ m' msgs, handleArrival sendAll exMgrWait 20 "r1" "r2"
        = some (m', msgs, PostAction.runPlayer "r1" 2)
      ∧ m'.waiting = none
      ∧ dictGet m'.rooms "r1" = some
          { room_id := "r1",
            players := [(1, { waiterA with player_id := 1 }),
                        (2, { ws := some 20, player_id := 2 })] } :=
  c1_pairing sendAll exMgrWait waiterA 10 20 "r1" "r2" rfl rfl rfl rfl

/-- Witness for C5 with a dead partner link and a live new connection. -/
theorem c5_fallback_witness :
    ∃ m', handleArrival sendNot10 exMgrWait 20 "r1" "r2"
        = some (m', [(20, Msg.joined 1 2), (20, Msg.both_joined 1)],
            PostAction.runPlayer "r2" 1)
      ∧ dictGet m'.rooms "r1" = none
      ∧ m'.rooms = dictInsert exMgrWait.rooms "r2"
          { room_id := "r2",
            players := [(1, { ws := some 20, player_id := 1 }),
                        (2, { ws := none, player_id := 2, ready := true })] } :=
  c5_fallback sendNot10 exMgrWait waiterA 10 20 "r1" "r2" rfl rfl rfl rfl rfl
    (by decide)

/-- Witness for the amended C2 at a fully-ready concrete room. -/
theorem c2_amended_witness :
    ∃ r msgs, handleReady (Except.ok (PyVal.pdict [("winner", PyVal.pint 1)]))
        sendAll roomTwoW 2 = some (r, msgs)
      ∧ ((r.state ≠ "waiting") ↔
          readyAdvancePred
            ({ roomTwoW with
                players := dictUpdate roomTwoW.players 2
                    ({ playerTwo with ready := true }) } : Room) = true) :=
  c2_amended (Except.ok (PyVal.pdict [("winner", PyVal.pint 1)])) sendAll
    roomTwoW 2 playerTwo rfl rfl

/-- Witness for the amended C4 at a concrete room and provider failure. -/
theorem c4_amended_witness :
    ∃ msgs, startBattle (Except.error "w") sendAll roomTwoW
        = some (({ roomTwoW with state := "playing" } : Room), msgs)
      ∧ ({ roomTwoW with state := "playing" } : Room).state ≠ "finished"
      ∧ ∀ p ∈ dictValues roomTwoW.players, ∀ w, p.ws = some w →
          sendAll w = true →
          (w, Msg.error ("バトル処理に失敗しました: " ++ "w")) ∈ msgs :=
  c4_amended roomTwoW "w" sendAll playerOne playerTwo [] rfl

/-- Witness for the amended C6 disconnect conjunct at a concrete registry. -/
theorem c6_amended_witness :
    (∀ r', dictGet ((disconnectM sendAll exMgrOne "r" 1).1).rooms "r" = some r' →
        dictGet r'.players 1 = none)
    ∧ (∀ x ∈ (disconnectM sendAll exMgrOne "r" 1).2,
        x.2 = Msg.opponent_disconnected)
    ∧ (∀ w, (((disconnectM sendAll exMgrOne "r" 1).2).map Prod.fst).count w ≤ 1)
    ∧ (dictPop roomTwoW.players 1 = [] →
        dictGet ((disconnectM sendAll exMgrOne "r" 1).1).rooms "r" = none)
    ∧ (dictPop roomTwoW.players 1 ≠ [] →
        dictGet ((disconnectM sendAll exMgrOne "r" 1).1).rooms "r"
          = some ({ roomTwoW with players := dictPop roomTwoW.players 1 } : Room)) :=
  c6_amended.1 sendAll exMgrOne "r" 1 roomTwoW rfl rfl (by decide) (by decide)
    (by decide)

/-- Witness for the amended C7 at a concrete failing submission. -/
theorem c7_amended_witness :
    ∃ p, dictGet roomTwoW.players 1 = some p ∧ p.ws = some 10 :=
  c7_amended.1 (Except.error "e") (Except.error "x") (Except.error "y")
    sendAll roomTwoW 1 "img" 10 ("キャラクター生成に失敗しました: " ++ "e")
    (List.mem_singleton.mpr rfl)

/-- Witness for the amended C10 with the integer winner value 2. -/
theorem c10_amended_witness :
    ∃ msgs,
      startBattle
          (Except.ok (PyVal.pdict [("winner", PyVal.pint 2),
            ("reason", PyVal.pstr "speed")]))
          sendAll roomTwoW
        = some (({ roomTwoW with state := "finished" } : Room), msgs)
      ∧ msgs = broadcastMsg sendAll ({ roomTwoW with state := "playing" } : Room)
            (Msg.battle_start (playerOne.player_id, playerOne.character)
              (playerTwo.player_id, playerTwo.character))
          ++ broadcastMsg sendAll ({ roomTwoW with state := "finished" } : Room)
            (Msg.battle_result (winnerPlayerId playerOne playerTwo (PyVal.pint 2))
              (PyVal.pstr "speed")
              (playerOne.player_id, playerOne.character)
              (playerTwo.player_id, playerTwo.character))
      ∧ ((PyVal.pint 2 = PyVal.pint 1 ∨ PyVal.pint 2 = PyVal.pbool true) →
          winnerPlayerId playerOne playerTwo (PyVal.pint 2) = playerOne.player_id)
      ∧ ((PyVal.pint 2 ≠ PyVal.pint 1 ∧ PyVal.pint 2 ≠ PyVal.pbool true) →
          winnerPlayerId playerOne playerTwo (PyVal.pint 2) = playerTwo.player_id) :=
  c10_amended roomTwoW playerOne playerTwo [] sendAll (PyVal.pint 2) "speed" rfl
